import Mathlib

/-!
# Verification of `hangups/auth.py`

A shallow embedding of the OAuth2 authentication module of the `hangups`
repository (file `hangups/auth.py`) together with theorems settling the
frozen claims about its specification.

The Python module performs IO through a `requests` session, a file-backed
refresh-token cache, interactive credential prompts and a scripted
`mechanicalsoup` browser.  The embedding makes every external interaction
explicit through an environment record `AuthEnv` of oracles (the responses
the outside world would give), threads the browser page state explicitly,
and records the externally visible actions of a run in a trace of events
(`Ev`).  Python exceptions are modelled by `Except PyErr`; `GoogleAuthError`
and the builtin `KeyError` (which raw dictionary indexing
such as `res["access_token"]` can raise) are the two exception kinds the
module itself can produce.
-/

set_option autoImplicit false

namespace HangupsAuth

/-- String association list: parsed JSON objects with string values,
cookie jars, and form-encoded request bodies are all modelled this way. -/
abbrev SDict := List (String × String)

/-- Python exceptions that code of the module itself can raise:
`GoogleAuthError(msg)` and `KeyError(key)` (from `d[key]` on a dict). -/
inductive PyErr where
  | googleAuthError (msg : String)
  | keyError (key : String)
deriving DecidableEq, Repr

/-- Python `repr` of a (quote-free) string, as produced by `format` with
the conversion that the source uses in its error messages. -/
def pyRepr (s : String) : String := "\x27" ++ s ++ "\x27"

/-- Holds when the value `v` occurs in the message `msg` as a substring. -/
def embedsVal (msg v : String) : Prop := v.data <:+: msg.data

instance (msg v : String) : Decidable (embedsVal msg v) :=
  List.decidableInfix v.data msg.data

/-- An HTML input element inside a form, keyed by its CSS selector;
the value records the current `value` attribute.  `form.select(sel)` is
nonempty exactly when `sel` is a key, and `[0]` is the first entry. -/
structure Form where
  inputs : SDict
deriving DecidableEq, Repr

/-- A fetched page: its URL, whether `raise_for_status()` passes (`ok`),
the exception message when it does not, and the forms of its soup keyed
by CSS selector (`soup.select(sel)` is nonempty iff `sel` is a key). -/
structure Page where
  url : String
  ok : Bool
  statusMsg : String
  forms : List (String × Form)
deriving DecidableEq, Repr

/-- An HTTP response as the module observes it: whether
`raise_for_status()` passes, the exception message when it does not,
and the body text. -/
structure HttpResp where
  ok : Bool
  errMsg : String
  text : String
deriving DecidableEq, Repr

/-- A token-endpoint response: whether `raise_for_status()` passes, the
exception message when it does not, and the parsed JSON body. -/
structure TokenResp where
  ok : Bool
  errMsg : String
  body : SDict
deriving DecidableEq, Repr

/-- The persistent storage slot behind `RefreshTokenCache`, together with
injected IO failures: `content = none` models an absent / unreadable file
(opening raises `IOError`), `readFails` / `writeFails` inject an `IOError`
on the corresponding operation even when the file exists. -/
structure SlotFS where
  content : Option String
  readFails : Bool
  writeFails : Bool
deriving DecidableEq, Repr

/-- Model of `RefreshTokenCache.get`: opens and reads the file, returning `none`
on any `IOError` (absent file or injected read failure) and the full
content of the file otherwise.  It never raises. -/
def RefreshTokenCache.get (fs : SlotFS) : Option String :=
  if fs.readFails then none else fs.content

/-- Model of `RefreshTokenCache.set`: writes the token to the file, ignoring any
`IOError`, and returns the token unchanged.  The second component is the
state of the storage slot after the call. -/
def RefreshTokenCache.set (fs : SlotFS) (refresh_token : String) :
    String × SlotFS :=
  if fs.writeFails then (refresh_token, fs)
  else (refresh_token, { fs with content := some refresh_token })

/-- Externally visible actions of a run, for stating which collaborators
an execution touches and in which order. -/
inductive Ev where
  | cacheGetEv
  | tokenRequest (data : SDict)
  | browserInit
  | getEmail
  | getPassword
  | getVerificationCode
  | formSubmit (sel : String)
  | getCookie (name : String)
  | cacheSet (tok : String)
  | oauthLoginCall
  | mergeSessionCall
deriving DecidableEq, Repr

/-- Number of occurrences of an event in a trace. -/
def countEv (e : Ev) : List Ev → Nat
  | [] => 0
  | x :: rest => (if x = e then 1 else 0) + countEv e rest

/-- The environment of one `get_auth` run: the storage slot state, the
answers of the credential prompts, and the responses every HTTP
interaction would receive.  `oauthCodeCookie` is the `oauth_code` entry
of the session cookie jar at the time `Browser.get_cookie` reads it, and
`sessionCookies` the `.google.com`-scoped cookies of the jar after the two
session-derivation calls. -/
structure AuthEnv where
  cacheFS : SlotFS
  tokenResp : SDict → TokenResp
  loginPage : Except String Page
  email : String
  password : String
  verificationCode : String
  submit : Form → String → Except String Page
  oauthCodeCookie : Option String
  oauthLoginResp : String → HttpResp
  mergeSessionResp : String → String → HttpResp
  sessionCookies : SDict

def OAUTH2_CLIENT_ID : String := "936475272427.apps.googleusercontent.com"

def OAUTH2_CLIENT_SECRET : String := "KWsJlkaMn1jGLxQpWxMnOox-"

def FORM_SELECTOR : String := "#gaia_loginform"

def EMAIL_SELECTOR : String := "#Email"

def PASSWORD_SELECTOR : String := "#Passwd"

def VERIFICATION_FORM_SELECTOR : String := "#challenge"

def VERIFICATION_CODE_SELECTOR : String := "#totpPin"

/-- Python `d[k]` on a string dict: the value, or `KeyError k`. -/
def dictGet (d : SDict) (k : String) : Except PyErr String :=
  match d.lookup k with
  | some v => .ok v
  | none => .error (.keyError k)

/-- Model of `_make_token_request`: posts `data` to the token endpoint.  A failed
request or non-success status raises `GoogleAuthError("Token request
failed: ...")`; otherwise the body is parsed as JSON and an `error` key
raises `GoogleAuthError("Token request error: ...")` embedding the
repr of the value; otherwise the parsed body is returned. -/
def make_token_request (env : AuthEnv) (data : SDict) :
    Except PyErr SDict × List Ev :=
  (if (env.tokenResp data).ok then
     match (env.tokenResp data).body.lookup "error" with
     | some v => .error (.googleAuthError ("Token request error: " ++ pyRepr v))
     | none => .ok (env.tokenResp data).body
   else
     .error (.googleAuthError
       ("Token request failed: " ++ (env.tokenResp data).errMsg)),
   [Ev.tokenRequest data])

/-- The form-encoded body of the refresh-token grant request. -/
def tokenRequestDataRefresh (refresh_token : String) : SDict :=
  [("client_id", OAUTH2_CLIENT_ID),
   ("client_secret", OAUTH2_CLIENT_SECRET),
   ("grant_type", "refresh_token"),
   ("refresh_token", refresh_token)]

/-- The form-encoded body of the authorization-code grant request. -/
def tokenRequestDataCode (code : String) : SDict :=
  [("client_id", OAUTH2_CLIENT_ID),
   ("client_secret", OAUTH2_CLIENT_SECRET),
   ("code", code),
   ("grant_type", "authorization_code"),
   ("redirect_uri", "urn:ietf:wg:oauth:2.0:oob")]

/-- Model of `_auth_with_refresh_token`: makes a refresh-token grant request and
returns `res["access_token"]` — raw indexing, so a success response
missing the key raises `KeyError`, not `GoogleAuthError`. -/
def auth_with_refresh_token (env : AuthEnv) (refresh_token : String) :
    Except PyErr String × List Ev :=
  (match (make_token_request env (tokenRequestDataRefresh refresh_token)).1 with
   | .error e => .error e
   | .ok res => dictGet res "access_token",
   (make_token_request env (tokenRequestDataRefresh refresh_token)).2)

/-- Model of `_auth_with_code`: makes an authorization-code grant request and
returns `(res["access_token"], res["refresh_token"])` — raw indexing,
evaluated left to right, so a missing key raises `KeyError`. -/
def auth_with_code (env : AuthEnv) (authorization_code : String) :
    Except PyErr (String × String) × List Ev :=
  (match (make_token_request env (tokenRequestDataCode authorization_code)).1 with
   | .error e => .error e
   | .ok res =>
     match dictGet res "access_token" with
     | .error e => .error e
     | .ok atok =>
       match dictGet res "refresh_token" with
       | .error e => .error e
       | .ok rtok => .ok (atok, rtok),
   (make_token_request env (tokenRequestDataCode authorization_code)).2)

/-- Replace the value of the first entry with the given key (Python sets
`form.select(selector)[0]["value"]`, the first matching element only). -/
def setFirst : SDict → String → String → SDict
  | [], _, _ => []
  | p :: rest, sel, v =>
    if p.1 = sel then (sel, v) :: rest else p :: setFirst rest sel v

/-- Write `v` into the first input matching `sel` inside the form. -/
def setValue (f : Form) (sel v : String) : Form :=
  { f with inputs := setFirst f.inputs sel v }

/-- The field-filling loop of `submit_form`: processes the input mapping
in order, writing each value into the form; stops at the first field
selector matching no input.  Returns the form as mutated so far and the
first missing selector (`none` when every field was found). -/
def fillInputs (f : Form) : List (String × String) → Form × Option String
  | [] => (f, none)
  | (sel, v) :: rest =>
    match f.inputs.lookup sel with
    | some _ => fillInputs (setValue f sel v) rest
    | none => (f, some sel)

/-- Replace the first form with the given selector (the located form is a
reference into the soup of the page, so its mutation mutates the page). -/
def setForm : List (String × Form) → String → Form → List (String × Form)
  | [], _, _ => []
  | p :: rest, sel, f =>
    if p.1 = sel then (sel, f) :: rest else p :: setForm rest sel f

/-- Model of `Browser.has_form`: whether the soup of the current page has a form
matching the selector. -/
def hasForm (page : Page) (sel : String) : Bool :=
  (page.forms.lookup sel).isSome

/-- Model of `Browser.submit_form` on the current page.  `sub` is the submission
oracle (`self._browser.submit`): a transport failure, or the response
page, whose non-success status still replaces the current page before
`raise_for_status()` raises.  The second component is the current page
of the browser after the call: field values written before a missing field
selector stay written into the soup, and only a submission that returns
a response replaces the page. -/
def submitForm (sub : Form → String → Except String Page) (page : Page)
    (formSel : String) (inputs : List (String × String)) :
    Except PyErr Unit × Page :=
  match page.forms.lookup formSel with
  | none =>
    (.error (.googleAuthError
       ("Failed to find form " ++ pyRepr formSel ++ " in page")), page)
  | some form =>
    let fr := fillInputs form inputs
    let page1 : Page := { page with forms := setForm page.forms formSel fr.1 }
    match fr.2 with
    | some sel =>
      (.error (.googleAuthError
         ("Failed to find input " ++ pyRepr sel ++ " in form")), page1)
    | none =>
      match sub fr.1 page.url with
      | .error msg =>
        (.error (.googleAuthError ("Failed to submit form: " ++ msg)), page1)
      | .ok newPage =>
        if newPage.ok then (.ok (), newPage)
        else
          (.error (.googleAuthError
             ("Failed to submit form: " ++ newPage.statusMsg)), newPage)

/-- The final step of `_get_authorization_code`: read the `oauth_code`
cookie from the session, turning `KeyError` into `GoogleAuthError`. -/
def readOauthCookie (env : AuthEnv) (evs : List Ev) :
    Except PyErr String × List Ev :=
  match env.oauthCodeCookie with
  | some code => (.ok code, evs ++ [Ev.getCookie "oauth_code"])
  | none =>
    (.error (.googleAuthError "Authorization code cookie not found"),
     evs ++ [Ev.getCookie "oauth_code"])

/-- Model of `_get_authorization_code`: constructs the `Browser` at the login URL
(failure to fetch the page or a non-success status is a
`GoogleAuthError`), submits the email and password forms, submits the
verification-code form when present, and reads the `oauth_code` cookie. -/
def get_authorization_code (env : AuthEnv) : Except PyErr String × List Ev :=
  match env.loginPage with
  | .error msg =>
    (.error (.googleAuthError ("Failed to load form: " ++ msg)),
     [Ev.browserInit])
  | .ok p0 =>
    if p0.ok then
      let r1 := submitForm env.submit p0 FORM_SELECTOR
        [(EMAIL_SELECTOR, env.email)]
      let evs1 := [Ev.browserInit, Ev.getEmail, Ev.formSubmit FORM_SELECTOR]
      match r1.1 with
      | .error e => (.error e, evs1)
      | .ok _ =>
        let r2 := submitForm env.submit r1.2 FORM_SELECTOR
          [(PASSWORD_SELECTOR, env.password)]
        let evs2 := evs1 ++ [Ev.getPassword, Ev.formSubmit FORM_SELECTOR]
        match r2.1 with
        | .error e => (.error e, evs2)
        | .ok _ =>
          if hasForm r2.2 VERIFICATION_FORM_SELECTOR then
            let r3 := submitForm env.submit r2.2 VERIFICATION_FORM_SELECTOR
              [(VERIFICATION_CODE_SELECTOR, env.verificationCode)]
            let evs3 := evs2 ++
              [Ev.getVerificationCode, Ev.formSubmit VERIFICATION_FORM_SELECTOR]
            match r3.1 with
            | .error e => (.error e, evs3)
            | .ok _ => readOauthCookie env evs3
          else readOauthCookie env evs2
    else
      (.error (.googleAuthError ("Failed to load form: " ++ p0.statusMsg)),
       [Ev.browserInit])

/-- Model of `_get_session_cookies`: two chained GET calls (the URL of the
second call embeds the body text of the first), each failing with a `GoogleAuthError`
naming the call; afterwards the `.google.com`-scoped cookies are read
from the session, and an empty cookie dict is a `GoogleAuthError`. -/
def get_session_cookies (env : AuthEnv) (access_token : String) :
    Except PyErr SDict × List Ev :=
  let r1 := env.oauthLoginResp access_token
  if r1.ok then
    let r2 := env.mergeSessionResp access_token r1.text
    if r2.ok then
      if env.sessionCookies.isEmpty then
        (.error (.googleAuthError "Failed to find session cookies"),
         [Ev.oauthLoginCall, Ev.mergeSessionCall])
      else
        (.ok env.sessionCookies, [Ev.oauthLoginCall, Ev.mergeSessionCall])
    else
      (.error (.googleAuthError ("MergeSession request failed: " ++ r2.errMsg)),
       [Ev.oauthLoginCall, Ev.mergeSessionCall])
  else
    (.error (.googleAuthError ("OAuthLogin request failed: " ++ r1.errMsg)),
     [Ev.oauthLoginCall])

/-- The `try:` block of `get_auth`: load the cached refresh token (absence
raises `GoogleAuthError("Refresh token not found")`) and exchange it. -/
def refreshAttempt (env : AuthEnv) : Except PyErr String × List Ev :=
  match RefreshTokenCache.get env.cacheFS with
  | none =>
    (.error (.googleAuthError "Refresh token not found"), [Ev.cacheGetEv])
  | some tok =>
    ((auth_with_refresh_token env tok).1,
     Ev.cacheGetEv :: (auth_with_refresh_token env tok).2)

/-- The `except GoogleAuthError:` block of `get_auth`: the credential
path — obtain an authorization code by driving the browser, exchange it
for both tokens, persist the refresh token via the cache — followed by
session-cookie derivation. -/
def credentialFinish (env : AuthEnv) : Except PyErr SDict × List Ev :=
  match (get_authorization_code env).1 with
  | .error e => (.error e, (get_authorization_code env).2)
  | .ok code =>
    match (auth_with_code env code).1 with
    | .error e =>
      (.error e, (get_authorization_code env).2 ++ (auth_with_code env code).2)
    | .ok (atok, rtok) =>
      ((get_session_cookies env atok).1,
       (get_authorization_code env).2 ++ (auth_with_code env code).2
         ++ Ev.cacheSet rtok :: (get_session_cookies env atok).2)

/-- What `get_auth` does after the `try:` block, as a function of the
outcome of the block: success goes straight to session-cookie derivation, a
`GoogleAuthError` is absorbed and triggers the credential path, and any
other exception (such as `KeyError`) is not caught and propagates. -/
def afterRefresh (env : AuthEnv) : Except PyErr String → Except PyErr SDict × List Ev
  | .ok atok =>
    ((get_session_cookies env atok).1, (get_session_cookies env atok).2)
  | .error (PyErr.googleAuthError _) => credentialFinish env
  | .error e => (.error e, [])

/-- Model of `get_auth`: the top-level two-path login flow, returning the session
cookie dict (or the propagated exception) and the trace of the run. -/
def get_auth (env : AuthEnv) : Except PyErr SDict × List Ev :=
  ((afterRefresh env (refreshAttempt env).1).1,
   (refreshAttempt env).2 ++ (afterRefresh env (refreshAttempt env).1).2)

/-! ## Helper lemmas about the traces of the modelled operations -/

theorem countEv_append (e : Ev) (l1 l2 : List Ev) :
    countEv e (l1 ++ l2) = countEv e l1 + countEv e l2 := by
  induction l1 with
  | nil => simp [countEv]
  | cons x rest ih => simp [countEv, ih]; omega

theorem make_token_request_trace (env : AuthEnv) (d : SDict) :
    (make_token_request env d).2 = [Ev.tokenRequest d] := rfl

theorem auth_refresh_trace (env : AuthEnv) (t : String) :
    (auth_with_refresh_token env t).2 =
      [Ev.tokenRequest (tokenRequestDataRefresh t)] := rfl

theorem auth_code_trace (env : AuthEnv) (c : String) :
    (auth_with_code env c).2 =
      [Ev.tokenRequest (tokenRequestDataCode c)] := rfl

theorem session_trace (env : AuthEnv) (a : String) :
    (get_session_cookies env a).2 = [Ev.oauthLoginCall] ∨
    (get_session_cookies env a).2 = [Ev.oauthLoginCall, Ev.mergeSessionCall] := by
  simp only [get_session_cookies]
  repeat' split
  all_goals simp

theorem authcode_count_browserInit (env : AuthEnv) :
    countEv Ev.browserInit (get_authorization_code env).2 = 1 := by
  simp only [get_authorization_code, readOauthCookie]
  repeat' split
  all_goals simp [countEv]

theorem refreshAttempt_count_browserInit (env : AuthEnv) :
    countEv Ev.browserInit (refreshAttempt env).2 = 0 := by
  simp only [refreshAttempt]
  split
  all_goals simp [countEv, auth_refresh_trace]

/-! ## Concrete environments used to evaluate the model -/

/-- A base environment: no cached token, token endpoint answering success
with an empty JSON body, session-derivation calls succeeding, one
`.google.com` cookie in the jar, browser interactions unused. -/
def baseEnv : AuthEnv := {
  cacheFS := { content := none, readFails := false, writeFails := false },
  tokenResp := fun _ => { ok := true, errMsg := "", body := [] },
  loginPage := .error "unused",
  email := "user@x.com", password := "pw", verificationCode := "vc",
  submit := fun _ _ => .error "unused",
  oauthCodeCookie := none,
  oauthLoginResp := fun _ => { ok := true, errMsg := "", text := "ub" },
  mergeSessionResp := fun _ _ => { ok := true, errMsg := "", text := "" },
  sessionCookies := [("SID", "x")] }

/-- Token endpoint answering a non-success status while the JSON body
carries an `error` value. -/
def envC1 : AuthEnv := { baseEnv with
  tokenResp := fun _ =>
    { ok := false, errMsg := "400 Client Error: Bad Request for url",
      body := [("error", "invalid_grant")] } }

/-- Token endpoint answering success with an `error` value in the body. -/
def envC1ok : AuthEnv := { baseEnv with
  tokenResp := fun _ =>
    { ok := true, errMsg := "", body := [("error", "invalid_grant")] } }

/-- Token endpoint answering success with a body containing only
`access_token` (no `refresh_token`). -/
def envC2b : AuthEnv := { baseEnv with
  tokenResp := fun _ =>
    { ok := true, errMsg := "", body := [("access_token", "T2")] } }

/-- A cached refresh token together with a token endpoint answering
success with an empty JSON body. -/
def envC3 : AuthEnv := { baseEnv with
  cacheFS := { content := some "cachedtok", readFails := false,
               writeFails := false } }

/-- The login page: one login form holding the email and password
fields, no verification-code form. -/
def pLogin : Page := {
  url := "login", ok := true, statusMsg := "",
  forms := [(FORM_SELECTOR,
    { inputs := [(EMAIL_SELECTOR, ""), (PASSWORD_SELECTOR, "")] })] }

/-- A full credential-path run: no cached token, working login form,
`oauth_code` cookie present, token endpoint answering success with a
body missing `refresh_token`. -/
def envC9 : AuthEnv := { baseEnv with
  loginPage := .ok pLogin,
  submit := fun _ _ => .ok pLogin,
  oauthCodeCookie := some "code123",
  tokenResp := fun _ =>
    { ok := true, errMsg := "", body := [("access_token", "T2")] } }

/-- Both session-derivation calls succeed but the cookie jar holds no
`.google.com` cookies. -/
def envC7 : AuthEnv := { baseEnv with sessionCookies := [] }

def fsOk : SlotFS := {
  content := some "old", readFails := false, writeFails := false }

def fsRead : SlotFS := {
  content := some "old", readFails := true, writeFails := false }

def fsWrite : SlotFS := {
  content := some "old", readFails := false, writeFails := true }

/-- A readable storage slot holding the empty string. -/
def fsEmpty : SlotFS := {
  content := some "", readFails := false, writeFails := false }

/-- Cache slot readable and holding the empty string. -/
def envC10 : AuthEnv := { baseEnv with cacheFS := fsEmpty }

/-! ## Claims -/

/-- Claim C1, counterexample.  The claim says that every token-endpoint
response whose JSON body contains an `error` key yields an `AuthError`
embedding that error value, for every HTTP status code.  At a
non-success status the code raises from `raise_for_status()` before ever
reading the body, so the resulting `GoogleAuthError` message does not
embed the error value of the body. -/
theorem C1_error_embedding_cex :
    (envC1.tokenResp (tokenRequestDataRefresh "tok")).body.lookup "error" =
      some "invalid_grant" ∧
    (make_token_request envC1 (tokenRequestDataRefresh "tok")).1 =
      .error (.googleAuthError
        "Token request failed: 400 Client Error: Bad Request for url") ∧
    ¬ embedsVal "Token request failed: 400 Client Error: Bad Request for url"
        "invalid_grant" :=
  ⟨rfl, rfl, by decide⟩

/-- Claim C1, amended.  For a success-status token-endpoint response whose
JSON body contains an `error` key, `_make_token_request` fails with a
`GoogleAuthError` embedding that error value; for a non-success-status
response it fails with a terminal `GoogleAuthError` reporting the HTTP
failure (without reading the body). -/
theorem C1_token_error_embedding (env : AuthEnv) (d : SDict) :
    (∀ v, (env.tokenResp d).ok = true →
      (env.tokenResp d).body.lookup "error" = some v →
      (make_token_request env d).1 =
        .error (.googleAuthError ("Token request error: " ++ pyRepr v)) ∧
      embedsVal ("Token request error: " ++ pyRepr v) v) ∧
    ((env.tokenResp d).ok = false →
      (make_token_request env d).1 =
        .error (.googleAuthError
          ("Token request failed: " ++ (env.tokenResp d).errMsg))) := by
  constructor
  · intro v hok herr
    refine ⟨by simp [make_token_request, hok, herr], ?_⟩
    refine ⟨"Token request error: \x27".data, "\x27".data, ?_⟩
    simp [pyRepr, String.data_append]
  · intro hok
    simp [make_token_request, hok]

/-- Claim C1, witness.  The amended theorem applied at concrete inputs:
a success-status response carrying `error = invalid_grant`, and the
non-success-status response of `envC1`. -/
theorem C1_token_error_embedding_witness :
    ((make_token_request envC1ok (tokenRequestDataRefresh "tok")).1 =
       .error (.googleAuthError ("Token request error: " ++ pyRepr "invalid_grant")) ∧
     embedsVal ("Token request error: " ++ pyRepr "invalid_grant") "invalid_grant") ∧
    (make_token_request envC1 (tokenRequestDataRefresh "tok")).1 =
      .error (.googleAuthError ("Token request failed: " ++
        (envC1.tokenResp (tokenRequestDataRefresh "tok")).errMsg)) :=
  ⟨(C1_token_error_embedding envC1ok (tokenRequestDataRefresh "tok")).1
      "invalid_grant" rfl rfl,
   (C1_token_error_embedding envC1 (tokenRequestDataRefresh "tok")).2 rfl⟩

/-- Claim C2.  A success-status token response missing an expected key
makes the token exchange fail with `KeyError` (from the raw dictionary
indexing `res["access_token"]` / `res["refresh_token"]`), not with a
`GoogleAuthError`, contradicting the documented contract of the module that
authentication failures raise `GoogleAuthError`. -/
theorem C2_missing_key_is_keyerror :
    (auth_with_refresh_token baseEnv "rtok").1 = .error (.keyError "access_token") ∧
    (auth_with_code baseEnv "code123").1 = .error (.keyError "access_token") ∧
    (auth_with_code envC2b "code123").1 = .error (.keyError "refresh_token") ∧
    ∀ m, PyErr.keyError "access_token" ≠ PyErr.googleAuthError m :=
  ⟨rfl, rfl, rfl, fun _ h => PyErr.noConfusion h⟩

/-- Claim C3.  A refresh-token-path failure that is not a `GoogleAuthError`
is not recovered: with a cached token and a success-status exchange
response missing `access_token`, `get_auth` propagates the `KeyError`
to the caller and never starts the credential path. -/
theorem C3_refresh_keyerror_not_recovered :
    (get_auth envC3).1 = .error (.keyError "access_token") ∧
    Ev.browserInit ∉ (get_auth envC3).2 ∧
    Ev.getEmail ∉ (get_auth envC3).2 :=
  ⟨rfl, by decide, by decide⟩

/-- Claim C7.  If both session-derivation calls return success status and
the `.google.com`-scoped cookie set is empty, `_get_session_cookies`
fails with a `GoogleAuthError`; an empty cookie map is never returned
as valid output. -/
theorem C7_empty_cookie_set_fails (env : AuthEnv) (atok : String) :
    ((env.oauthLoginResp atok).ok = true →
     (env.mergeSessionResp atok (env.oauthLoginResp atok).text).ok = true →
     env.sessionCookies = [] →
     (get_session_cookies env atok).1 =
       .error (.googleAuthError "Failed to find session cookies")) ∧
    (∀ m, (get_session_cookies env atok).1 = .ok m → m ≠ []) := by
  constructor
  · intro h1 h2 h3
    simp [get_session_cookies, h1, h2, h3]
  · intro m hm
    simp only [get_session_cookies] at hm
    repeat' split at hm
    all_goals simp_all

/-- Claim C7, witness.  The theorem applied at a concrete environment with
an empty cookie jar, and at one with a non-empty jar. -/
theorem C7_empty_cookie_set_fails_witness :
    (get_session_cookies envC7 "T1").1 =
      .error (.googleAuthError "Failed to find session cookies") ∧
    ([("SID", "x")] : SDict) ≠ [] :=
  ⟨(C7_empty_cookie_set_fails envC7 "T1").1 rfl rfl rfl,
   (C7_empty_cookie_set_fails baseEnv "T1").2 [("SID", "x")] rfl⟩

/-- Claim C8.  `RefreshTokenCache` round-trip: without injected failures,
`set t` returns `t` and a subsequent `get` returns `t`; an injected read
failure makes `get` return the absent value; an injected write failure
leaves the slot unchanged while `set` still returns its input.  Both
operations are total (they never raise). -/
theorem C8_cache_roundtrip (fs : SlotFS) (t : String) :
    (fs.readFails = false → fs.writeFails = false →
      (RefreshTokenCache.set fs t).1 = t ∧
      RefreshTokenCache.get (RefreshTokenCache.set fs t).2 = some t) ∧
    (fs.readFails = true → RefreshTokenCache.get fs = none) ∧
    (fs.writeFails = true → RefreshTokenCache.set fs t = (t, fs)) := by
  refine ⟨fun hr hw => ?_, fun hr => ?_, fun hw => ?_⟩
  · simp [RefreshTokenCache.set, RefreshTokenCache.get, hr, hw]
  · simp [RefreshTokenCache.get, hr]
  · simp [RefreshTokenCache.set, hw]

/-- Claim C8, witness.  The theorem applied at concrete slots: a healthy
slot, one with an injected read failure, one with an injected write
failure. -/
theorem C8_cache_roundtrip_witness :
    ((RefreshTokenCache.set fsOk "abc").1 = "abc" ∧
     RefreshTokenCache.get (RefreshTokenCache.set fsOk "abc").2 = some "abc") ∧
    RefreshTokenCache.get fsRead = none ∧
    RefreshTokenCache.set fsWrite "abc" = ("abc", fsWrite) :=
  ⟨(C8_cache_roundtrip fsOk "abc").1 rfl rfl,
   (C8_cache_roundtrip fsRead "abc").2.1 rfl,
   (C8_cache_roundtrip fsWrite "abc").2.2 rfl⟩

/-- Claim C9.  On a full credential-path run in which the code-grant
response lacks `refresh_token`, `get_auth` surfaces a `KeyError` — not a
`GoogleAuthError` — across the public boundary, contradicting its
documented contract (`Raises GoogleAuthError on failure`). -/
theorem C9_keyerror_escapes_get_auth :
    (get_auth envC9).1 = .error (.keyError "refresh_token") ∧
    ∀ m, PyErr.keyError "refresh_token" ≠ PyErr.googleAuthError m :=
  ⟨rfl, fun _ h => PyErr.noConfusion h⟩

/-- Claim C10.  Any successfully read slot content — the empty string
included — is returned verbatim as a present token, and `get_auth` then
attempts the refresh-token exchange with it (the outcome of the refresh
path is the outcome of the exchange, not the immediate `Refresh token not found`
failure). -/
theorem C10_get_verbatim (fs : SlotFS) (s : String) (env : AuthEnv) :
    (fs.readFails = false → fs.content = some s →
      RefreshTokenCache.get fs = some s) ∧
    (RefreshTokenCache.get env.cacheFS = some "" →
      Ev.tokenRequest (tokenRequestDataRefresh "") ∈ (get_auth env).2 ∧
      (refreshAttempt env).1 = (auth_with_refresh_token env "").1) := by
  constructor
  · intro h1 h2
    simp [RefreshTokenCache.get, h1, h2]
  · intro h
    have h2 : (refreshAttempt env).2 =
        [Ev.cacheGetEv, Ev.tokenRequest (tokenRequestDataRefresh "")] := by
      simp [refreshAttempt, h, auth_refresh_trace]
    refine ⟨?_, by simp [refreshAttempt, h]⟩
    simp only [get_auth]
    rw [h2]
    simp

/-- Claim C10, witness.  The theorem applied at the concrete slot holding
the empty string. -/
theorem C10_get_verbatim_witness :
    RefreshTokenCache.get fsEmpty = some "" ∧
    (Ev.tokenRequest (tokenRequestDataRefresh "") ∈ (get_auth envC10).2 ∧
     (refreshAttempt envC10).1 = (auth_with_refresh_token envC10 "").1) :=
  ⟨(C10_get_verbatim fsEmpty "" envC10).1 rfl rfl,
   (C10_get_verbatim fsEmpty "" envC10).2 rfl⟩

theorem session_count_browserInit (env : AuthEnv) (a : String) :
    countEv Ev.browserInit (get_session_cookies env a).2 = 0 := by
  rcases session_trace env a with h | h <;> rw [h] <;> decide

/-- Claim C4.  When the cache holds a refresh token and the refresh-token
grant succeeds, `get_auth` never prompts for credentials and never
constructs or drives the browser: its trace contains no credential-source
event, no browser construction and no form submission. -/
theorem C4_refresh_success_no_credentials (env : AuthEnv) (t atok : String)
    (h1 : RefreshTokenCache.get env.cacheFS = some t)
    (h2 : (auth_with_refresh_token env t).1 = .ok atok) :
    Ev.getEmail ∉ (get_auth env).2 ∧ Ev.getPassword ∉ (get_auth env).2 ∧
    Ev.getVerificationCode ∉ (get_auth env).2 ∧
    Ev.browserInit ∉ (get_auth env).2 ∧
    ∀ s, Ev.formSubmit s ∉ (get_auth env).2 := by
  have hra1 : (refreshAttempt env).1 = .ok atok := by
    simp [refreshAttempt, h1, h2]
  have hra2 : (refreshAttempt env).2 =
      [Ev.cacheGetEv, Ev.tokenRequest (tokenRequestDataRefresh t)] := by
    simp [refreshAttempt, h1, auth_refresh_trace]
  have hga : (get_auth env).2 =
      (refreshAttempt env).2 ++ (get_session_cookies env atok).2 := by
    simp [get_auth, hra1, afterRefresh]
  rw [hga, hra2]
  rcases session_trace env atok with h | h <;> rw [h] <;>
    exact ⟨by simp, by simp, by simp, by simp, fun s => by simp⟩

/-- A cached token `abc` that the token endpoint accepts, answering
`access_token = T1`. -/
def envC4 : AuthEnv := { baseEnv with
  cacheFS := { content := some "abc", readFails := false, writeFails := false },
  tokenResp := fun _ =>
    { ok := true, errMsg := "", body := [("access_token", "T1")] } }

/-- Claim C4, witness.  The theorem applied at the concrete environment
with a valid cached refresh token. -/
theorem C4_refresh_success_no_credentials_witness :
    RefreshTokenCache.get envC4.cacheFS = some "abc" ∧
    (auth_with_refresh_token envC4 "abc").1 = .ok "T1" ∧
    Ev.browserInit ∉ (get_auth envC4).2 :=
  ⟨by rfl, by rfl,
   (C4_refresh_success_no_credentials envC4 "abc" "T1" (by rfl) (by rfl)).2.2.2.1⟩

theorem credentialFinish_count_browserInit (env : AuthEnv) :
    countEv Ev.browserInit (credentialFinish env).2 = 1 := by
  unfold credentialFinish
  repeat' split
  all_goals simp [countEv_append, authcode_count_browserInit, auth_code_trace,
    session_count_browserInit, countEv]

/-- Claim C5.  When the cached refresh token is absent or the exchange is
rejected by the provider, `get_auth` runs the credential path exactly
once (one browser construction in the trace), and on a successful return
the access token it finalizes with is the one from the code grant, with
the paired refresh token persisted via `Token Cache.set` before the
session-derivation calls. -/
theorem C5_credential_path_once (env : AuthEnv)
    (h : RefreshTokenCache.get env.cacheFS = none ∨
         ∃ t m, RefreshTokenCache.get env.cacheFS = some t ∧
           (auth_with_refresh_token env t).1 = .error (.googleAuthError m)) :
    countEv Ev.browserInit (get_auth env).2 = 1 ∧
    ∀ cookies, (get_auth env).1 = .ok cookies →
      ∃ code atok rtok,
        (get_authorization_code env).1 = .ok code ∧
        (auth_with_code env code).1 = .ok (atok, rtok) ∧
        (get_auth env).1 = (get_session_cookies env atok).1 ∧
        ∃ pre, (get_auth env).2 =
          pre ++ Ev.cacheSet rtok :: (get_session_cookies env atok).2 := by
  have hE : ∃ m, (refreshAttempt env).1 = .error (.googleAuthError m) := by
    rcases h with h | ⟨t, m, ht, hm⟩
    · exact ⟨"Refresh token not found", by simp [refreshAttempt, h]⟩
    · exact ⟨m, by simp [refreshAttempt, ht, hm]⟩
  obtain ⟨m, hm⟩ := hE
  have hga1 : (get_auth env).1 = (credentialFinish env).1 := by
    simp [get_auth, hm, afterRefresh]
  have hga2 : (get_auth env).2 =
      (refreshAttempt env).2 ++ (credentialFinish env).2 := by
    simp [get_auth, hm, afterRefresh]
  constructor
  · rw [hga2, countEv_append, refreshAttempt_count_browserInit,
        credentialFinish_count_browserInit]
  · intro cookies hc
    rw [hga1] at hc
    cases hac : (get_authorization_code env).1 with
    | error e => simp [credentialFinish, hac] at hc
    | ok code =>
      cases hcode : (auth_with_code env code).1 with
      | error e => simp [credentialFinish, hac, hcode] at hc
      | ok p =>
        obtain ⟨atok, rtok⟩ := p
        refine ⟨code, atok, rtok, rfl, hcode, ?_, ?_⟩
        · rw [hga1]
          simp [credentialFinish, hac, hcode]
        · refine ⟨(refreshAttempt env).2 ++
            ((get_authorization_code env).2 ++ (auth_with_code env code).2), ?_⟩
          rw [hga2]
          simp [credentialFinish, hac, hcode, List.append_assoc]

/-- A full successful credential-path run: no cached token, working
login form, `oauth_code` cookie present, code grant answering both
tokens. -/
def envC5 : AuthEnv := { baseEnv with
  loginPage := .ok pLogin,
  submit := fun _ _ => .ok pLogin,
  oauthCodeCookie := some "code123",
  tokenResp := fun _ =>
    { ok := true, errMsg := "",
      body := [("access_token", "T2"), ("refresh_token", "R2")] } }

/-- Claim C5, witness.  The theorem applied at the concrete environment
with no cached refresh token and a successful credential path. -/
theorem C5_credential_path_once_witness :
    countEv Ev.browserInit (get_auth envC5).2 = 1 ∧
    ∃ code atok rtok,
      (get_authorization_code envC5).1 = .ok code ∧
      (auth_with_code envC5 code).1 = .ok (atok, rtok) ∧
      (get_auth envC5).1 = (get_session_cookies envC5 atok).1 ∧
      ∃ pre, (get_auth envC5).2 =
        pre ++ Ev.cacheSet rtok :: (get_session_cookies envC5 atok).2 :=
  ⟨(C5_credential_path_once envC5 (Or.inl (by rfl))).1,
   (C5_credential_path_once envC5 (Or.inl (by rfl))).2 [("SID", "x")] (by rfl)⟩

/-! ## Lemmas about form filling and page mutation -/

theorem setFirst_lookup_isSome (j : SDict) (s v k : String) :
    ((setFirst j s v).lookup k).isSome = (j.lookup k).isSome := by
  induction j with
  | nil => simp [setFirst]
  | cons p rest ih =>
    rcases p with ⟨a, b⟩
    by_cases ha : a = s
    · subst ha
      by_cases hk : k = a
      · subst hk
        simp [setFirst, List.lookup]
      · have hb : (k == a) = false := beq_eq_false_iff_ne.mpr hk
        simp [setFirst, List.lookup, hb]
    · have hsf : setFirst ((a, b) :: rest) s v = (a, b) :: setFirst rest s v := by
        simp [setFirst, ha]
      by_cases hk : k = a
      · subst hk
        simp [hsf, List.lookup]
      · have hb : (k == a) = false := beq_eq_false_iff_ne.mpr hk
        simp [hsf, List.lookup, hb, ih]

theorem fillInputs_cons (f : Form) (s v : String)
    (rest : List (String × String)) :
    fillInputs f ((s, v) :: rest) =
      match f.inputs.lookup s with
      | some _ => fillInputs (setValue f s v) rest
      | none => (f, some s) := rfl

theorem fillInputs_none_spec (inputs : List (String × String)) :
    ∀ f : Form, (fillInputs f inputs).2 = none →
      ∀ p ∈ inputs, (f.inputs.lookup p.1).isSome = true := by
  induction inputs with
  | nil => intro f _ p hp; simp at hp
  | cons q rest ih =>
    intro f h p hp
    rcases q with ⟨s, v⟩
    rw [fillInputs_cons] at h
    cases hl : f.inputs.lookup s with
    | none => rw [hl] at h; simp at h
    | some w =>
      rw [hl] at h
      rcases List.mem_cons.mp hp with hp | hp
      · subst hp; simp [hl]
      · have := ih (setValue f s v) h p hp
        rw [show (setValue f s v).inputs = setFirst f.inputs s v from rfl,
          setFirst_lookup_isSome] at this
        exact this

theorem fillInputs_some_spec (inputs : List (String × String)) :
    ∀ (f : Form) (sel : String), (fillInputs f inputs).2 = some sel →
      (∃ v, (sel, v) ∈ inputs) ∧ f.inputs.lookup sel = none ∧
      ∀ k, (((fillInputs f inputs).1).inputs.lookup k).isSome =
        (f.inputs.lookup k).isSome := by
  induction inputs with
  | nil => intro f sel h; simp [fillInputs] at h
  | cons q rest ih =>
    intro f sel h
    rcases q with ⟨s, v⟩
    rw [fillInputs_cons] at h
    cases hl : f.inputs.lookup s with
    | none =>
      rw [hl] at h
      simp only at h
      injection h with h
      subst h
      refine ⟨⟨v, List.mem_cons_self _ _⟩, hl, ?_⟩
      intro k
      rw [fillInputs_cons, hl]
    | some w =>
      rw [hl] at h
      simp only at h
      obtain ⟨⟨v2, hv2⟩, hnone, hpres⟩ := ih (setValue f s v) sel h
      have hnone2 : f.inputs.lookup sel = none := by
        have hiso := setFirst_lookup_isSome f.inputs s v sel
        rw [show (setValue f s v).inputs = setFirst f.inputs s v from rfl] at hnone
        rw [hnone] at hiso
        cases hfl : f.inputs.lookup sel with
        | none => rfl
        | some x => rw [hfl] at hiso; simp at hiso
      refine ⟨⟨v2, List.mem_cons_of_mem _ hv2⟩, hnone2, ?_⟩
      intro k
      rw [fillInputs_cons, hl]
      simp only
      rw [hpres k, show (setValue f s v).inputs = setFirst f.inputs s v from rfl,
        setFirst_lookup_isSome]

theorem fillInputs_missing (inputs : List (String × String)) (f : Form)
    (h : ∃ p ∈ inputs, f.inputs.lookup p.1 = none) :
    ∃ sel, (fillInputs f inputs).2 = some sel := by
  cases hfr : (fillInputs f inputs).2 with
  | some sel => exact ⟨sel, rfl⟩
  | none =>
    obtain ⟨p, hp, hnone⟩ := h
    have := fillInputs_none_spec inputs f hfr p hp
    rw [hnone] at this
    simp at this

theorem setForm_lookup_ne (forms : List (String × Form)) (sel s : String)
    (f : Form) (h : s ≠ sel) :
    (setForm forms sel f).lookup s = forms.lookup s := by
  induction forms with
  | nil => simp [setForm]
  | cons p rest ih =>
    rcases p with ⟨a, b⟩
    by_cases ha : a = sel
    · subst ha
      have hb : (s == a) = false := beq_eq_false_iff_ne.mpr h
      simp [setForm, List.lookup, hb]
    · have hsf : setForm ((a, b) :: rest) sel f = (a, b) :: setForm rest sel f := by
        simp [setForm, ha]
      by_cases hs : s = a
      · subst hs
        simp [hsf, List.lookup]
      · have hb : (s == a) = false := beq_eq_false_iff_ne.mpr hs
        simp [hsf, List.lookup, hb, ih]

theorem setForm_lookup_eq (forms : List (String × Form)) (sel : String)
    (f g : Form) (h : forms.lookup sel = some g) :
    (setForm forms sel f).lookup sel = some f := by
  induction forms with
  | nil => simp [List.lookup] at h
  | cons p rest ih =>
    rcases p with ⟨a, b⟩
    by_cases ha : a = sel
    · subst ha
      simp [setForm, List.lookup]
    · have hb : (sel == a) = false := beq_eq_false_iff_ne.mpr (Ne.symm ha)
      have hsf : setForm ((a, b) :: rest) sel f = (a, b) :: setForm rest sel f := by
        simp [setForm, ha]
      have h2 : rest.lookup sel = some g := by
        simpa [List.lookup, hb] using h
      simp [hsf, List.lookup, hb, ih h2]

/-- The form of the C6 counterexample: one input with selector `#a`. -/
def formC6 : Form := { inputs := [("#a", "old")] }

/-- The page of the C6 counterexample: a single form `#f`. -/
def pageC6 : Page := {
  url := "login", ok := true, statusMsg := "", forms := [("#f", formC6)] }

/-- Claim C6, counterexample.  The claim says a failed `submit_form` call
leaves the page state undisturbed (not mutated).  With the mapping
`[#a := new, #b := w]` on a form holding only `#a`, the call fails
naming `#b`, but the value of `#a` has already been written into the
soup of the current page: the page after the call differs from the page
before. -/
theorem C6_mutation_cex :
    (submitForm (fun _ _ => .error "unused") pageC6 "#f"
       [("#a", "new"), ("#b", "w")]).1 =
      .error (.googleAuthError
        ("Failed to find input " ++ pyRepr "#b" ++ " in form")) ∧
    (submitForm (fun _ _ => .error "unused") pageC6 "#f"
       [("#a", "new"), ("#b", "w")]).2 ≠ pageC6 ∧
    (submitForm (fun _ _ => .error "unused") pageC6 "#f"
       [("#a", "new"), ("#b", "w")]).2.forms.lookup "#f" =
      some { inputs := [("#a", "new")] } :=
  ⟨by rfl, by decide, by rfl⟩

/-- Claim C6, amended.  When the form selector matches a form but some
field selector matches no input in it, `submit_form` fails with a
`GoogleAuthError` naming the first missing field selector, and the page
is not replaced by any response page: its URL is unchanged, every other
form is untouched, and the located form still has exactly the same
field selectors — but the values of fields processed before the missing
one may already have been written into the soup of the current page. -/
theorem C6_missing_field (sub : Form → String → Except String Page)
    (page : Page) (formSel : String) (inputs : List (String × String))
    (form : Form)
    (hf : page.forms.lookup formSel = some form)
    (hm : ∃ p ∈ inputs, form.inputs.lookup p.1 = none) :
    ∃ sel, (∃ v, (sel, v) ∈ inputs) ∧ form.inputs.lookup sel = none ∧
      (submitForm sub page formSel inputs).1 =
        .error (.googleAuthError
          ("Failed to find input " ++ pyRepr sel ++ " in form")) ∧
      (submitForm sub page formSel inputs).2.url = page.url ∧
      (∀ s, s ≠ formSel →
        (submitForm sub page formSel inputs).2.forms.lookup s =
          page.forms.lookup s) ∧
      ∃ f2, (submitForm sub page formSel inputs).2.forms.lookup formSel =
          some f2 ∧
        ∀ k, (f2.inputs.lookup k).isSome = (form.inputs.lookup k).isSome := by
  obtain ⟨sel, hsel⟩ := fillInputs_missing inputs form hm
  obtain ⟨⟨v, hv⟩, hnone, hpres⟩ := fillInputs_some_spec inputs form sel hsel
  have hsf : submitForm sub page formSel inputs =
      (.error (.googleAuthError
         ("Failed to find input " ++ pyRepr sel ++ " in form")),
       { page with forms := setForm page.forms formSel (fillInputs form inputs).1 }) := by
    simp [submitForm, hf, hsel]
  refine ⟨sel, ⟨v, hv⟩, hnone, ?_, ?_, ?_, ?_⟩
  · rw [hsf]
  · rw [hsf]
  · intro s hs
    rw [hsf]
    exact setForm_lookup_ne page.forms formSel s _ hs
  · refine ⟨(fillInputs form inputs).1, ?_, hpres⟩
    rw [hsf]
    exact setForm_lookup_eq page.forms formSel _ form hf

/-- Claim C6, witness.  The amended theorem applied at the concrete page
and input mapping of the counterexample. -/
theorem C6_missing_field_witness :
    ∃ sel, (∃ v, (sel, v) ∈ [("#a", "new"), ("#b", "w")]) ∧
      formC6.inputs.lookup sel = none ∧
      (submitForm (fun _ _ => .error "unused") pageC6 "#f"
         [("#a", "new"), ("#b", "w")]).1 =
        .error (.googleAuthError
          ("Failed to find input " ++ pyRepr sel ++ " in form")) ∧
      (submitForm (fun _ _ => .error "unused") pageC6 "#f"
         [("#a", "new"), ("#b", "w")]).2.url = pageC6.url ∧
      (∀ s, s ≠ "#f" →
        (submitForm (fun _ _ => .error "unused") pageC6 "#f"
           [("#a", "new"), ("#b", "w")]).2.forms.lookup s =
          pageC6.forms.lookup s) ∧
      ∃ f2, (submitForm (fun _ _ => .error "unused") pageC6 "#f"
           [("#a", "new"), ("#b", "w")]).2.forms.lookup "#f" = some f2 ∧
        ∀ k, (f2.inputs.lookup k).isSome = (formC6.inputs.lookup k).isSome :=
  C6_missing_field (fun _ _ => .error "unused") pageC6 "#f"
    [("#a", "new"), ("#b", "w")] formC6 (by rfl)
    ⟨("#b", "w"), by decide, by rfl⟩

end HangupsAuth
